import Mathlib

/-!
Shallow embedding of the XCCL bootstrap coordinator
(`comms/torchcomms/xccl/TorchCommXCCLBootstrap.cpp`) and of the Level Zero
device API shim (`comms/torchcomms/device/XpuApi.cpp`).

External collaborators (the collective backend, the coordination store, the
device runtime) are modelled as explicit parameters describing the results
they return; observable calls to them are recorded in an event trace so that
ordering properties ("fails before any backend call") can be stated.
-/

namespace TorchCommXCCL

/-- Decimal digit characters of `n`, most significant first; mirrors
`std::to_string` for nonnegative values. -/
def natDigits (n : Nat) : List Char :=
  if h : n < 10 then [Char.ofNat (48 + n)]
  else natDigits (n / 10) ++ [Char.ofNat (48 + n % 10)]
  decreasing_by exact Nat.div_lt_self (by omega) (by omega)

/-- `std::to_string` on a nonnegative integer. -/
def natToStr (n : Nat) : String := ⟨natDigits n⟩

/-- Decode a digit string back to the number it denotes (accumulator fold). -/
def decDigits (ds : List Char) : Nat :=
  ds.foldl (fun a c => 10 * a + (c.toNat - 48)) 0

/-- ASCII lower-casing of a string; mirrors the `std::transform`/`std::tolower`
loop in the constructor. -/
def strToLower (s : String) : String := s.map Char.toLower

/-- Leading decimal digits of a character list, `none` when there is no
leading digit (the case in which `std::stoi` throws `invalid_argument`). -/
def digitsOf (cs : List Char) : Option Nat :=
  let ds := cs.takeWhile Char.isDigit
  if ds = [] then none else some (decDigits ds)

/-- `std::stoi`: skip leading whitespace, accept an optional sign, then
require at least one decimal digit; trailing garbage is ignored. `none`
models the `std::invalid_argument` exception. -/
def stoi (s : String) : Option Int :=
  let cs := s.data.dropWhile
    (fun c => c = ' ' || c = '\t' || c = '\n' || c = '\x0b' || c = '\x0c' || c = '\r')
  match cs with
  | '-' :: rest => (digitsOf rest).map (fun n => -(n : Int))
  | '+' :: rest => (digitsOf rest).map (fun n => (n : Int))
  | rest => (digitsOf rest).map (fun n => (n : Int))

/-- Error message produced when `std::stoi` rejects a hint value. -/
def stoiErrMsg : String := "stoi: invalid argument"

/-- Observable calls the bootstrap makes to its external collaborators. -/
inductive Event where
  | backendGetUniqueId
  | storeSet (key : String)
  | storeRead (key : String)
  | storeAcquire
  | storeReset
  | warnUnknownHint (key : String) (name : String)
  | logErrorAllReduce
  | backendCommInit
  | allReduceBarrier
  | streamSync
  | freeBuffer
  deriving DecidableEq, Repr

/-- The `onecclConfig_t` fields written by `populateXcclConfigFromHints`
and `createXcclComm`. String fields are `Option` because the initializer
leaves them as null pointers. -/
structure OneCCLConfig where
  blocking : Int
  cgaClusterSize : Int
  minCTAs : Int
  maxCTAs : Int
  netName : Option String
  splitShare : Int
  trafficClass : Int
  commName : Option String
  collnetEnable : Int
  CTAPolicy : Int
  shrinkShare : Int
  nvlsCTAs : Int
  nChannelsPerNetPeer : Int
  nvlinkCentricSched : Int
  deriving DecidableEq, Repr

/-- An arbitrary concrete configuration standing in for
`XCCL_CONFIG_INITIALIZER` in concrete test runs. -/
def defaultConfig : OneCCLConfig :=
  ⟨0, 0, 0, 0, none, 0, 0, none, 0, 0, 0, 0, 0, 0⟩

/-- `config.<field> = std::stoi(val)` for one integer-typed hint branch:
assign the parsed value through `set`, or propagate the `std::stoi`
exception. -/
def setIntHint (set : Int → OneCCLConfig) (val : String) :
    List Event × Except String OneCCLConfig :=
  match stoi val with
  | some v => ([], .ok (set v))
  | none => ([], .error stoiErrMsg)

/-- One iteration of the hint loop in `populateXcclConfigFromHints`: the
if/else-if chain on the hint key, mirroring the source branch for branch. -/
def applyHint (name : String) (cfg : OneCCLConfig) (key val : String) :
    List Event × Except String OneCCLConfig :=
  if key = "blocking" then
    setIntHint (fun v => { cfg with blocking := v }) val
  else if key = "cgaClusterSize" || key = "cga_cluster_size" then
    setIntHint (fun v => { cfg with cgaClusterSize := v }) val
  else if key = "minCTAs" || key = "min_ctas" then
    setIntHint (fun v => { cfg with minCTAs := v }) val
  else if key = "maxCTAs" || key = "max_ctas" then
    setIntHint (fun v => { cfg with maxCTAs := v }) val
  else if key = "netName" then
    ([], .ok { cfg with netName := some val })
  else if key = "splitShare" || key = "split_share" then
    setIntHint (fun v => { cfg with splitShare := v }) val
  else if key = "trafficClass" || key = "traffic_class" then
    setIntHint (fun v => { cfg with trafficClass := v }) val
  else if key = "commName" then
    ([], .ok { cfg with commName := some val })
  else if key = "collnetEnable" || key = "collnet_enable" then
    setIntHint (fun v => { cfg with collnetEnable := v }) val
  else if key = "CTAPolicy" || key = "cta_policy" then
    setIntHint (fun v => { cfg with CTAPolicy := v }) val
  else if key = "shrinkShare" then
    setIntHint (fun v => { cfg with shrinkShare := v }) val
  else if key = "nvlsCTAs" || key = "nvls_ctas" then
    setIntHint (fun v => { cfg with nvlsCTAs := v }) val
  else if key = "nChannelsPerNetPeer" || key = "n_channels_per_net_peer" then
    setIntHint (fun v => { cfg with nChannelsPerNetPeer := v }) val
  else if key = "nvlinkCentricSched" || key = "nvlink_centric_sched" then
    setIntHint (fun v => { cfg with nvlinkCentricSched := v }) val
  else
    ([.warnUnknownHint key name], .ok cfg)

/-- `populateXcclConfigFromHints`: fold `applyHint` over the hint entries;
an `std::stoi` exception aborts the loop and propagates. -/
def populateXcclConfigFromHints (cfg : OneCCLConfig)
    (hints : List (String × String)) (name : String) :
    List Event × Except String OneCCLConfig :=
  match hints with
  | [] => ([], .ok cfg)
  | (k, v) :: rest =>
    let a := applyHint name cfg k v
    match a.2 with
    | .error e => (a.1, .error e)
    | .ok cfg' =>
      let p := populateXcclConfigFromHints cfg' rest name
      (a.1 ++ p.1, p.2)

/-- The hint keys the translation pass recognizes (every spelling that has a
branch in the source). -/
def recognizedKeys : List String :=
  ["blocking",
   "cgaClusterSize", "cga_cluster_size",
   "minCTAs", "min_ctas",
   "maxCTAs", "max_ctas",
   "netName",
   "splitShare", "split_share",
   "trafficClass", "traffic_class",
   "commName",
   "collnetEnable", "collnet_enable",
   "CTAPolicy", "cta_policy",
   "shrinkShare",
   "nvlsCTAs", "nvls_ctas",
   "nChannelsPerNetPeer", "n_channels_per_net_peer",
   "nvlinkCentricSched", "nvlink_centric_sched"]

/-- The recognized keys whose values are parsed with `std::stoi`. -/
def intHintKeys : List String :=
  ["blocking",
   "cgaClusterSize", "cga_cluster_size",
   "minCTAs", "min_ctas",
   "maxCTAs", "max_ctas",
   "splitShare", "split_share",
   "trafficClass", "traffic_class",
   "collnetEnable", "collnet_enable",
   "CTAPolicy", "cta_policy",
   "shrinkShare",
   "nvlsCTAs", "nvls_ctas",
   "nChannelsPerNetPeer", "n_channels_per_net_peer",
   "nvlinkCentricSched", "nvlink_centric_sched"]

/-- The exchange-method constants of the source. -/
def kUniqueidXchgMethodAuto : String := "auto"

def kUniqueidXchgMethodTCPStore : String := "tcpstore"

def kUniqueidXchgMethodDefault : String := kUniqueidXchgMethodAuto

/-- Mutable state of a `TorchCommXCCLBootstrap` instance, together with the
process-wide static `counter_` threaded explicitly. -/
structure BootstrapState where
  rank : Nat
  commSize : Nat
  /-- `store_ != nullptr` -/
  storePresent : Bool
  createdInternalStore : Bool
  uniqueidXchgMethod : String
  deviceIndex : Int
  /-- the static `TorchCommXCCLBootstrap::counter_` -/
  counter : Nat
  deriving DecidableEq, Repr

/-- Results the external collaborators (collective backend, coordination
store, device runtime) return during one `createXcclComm` run. -/
structure World where
  /-- `sizeof(onecclUniqueId)` -/
  uniqueIdSize : Nat
  /-- result of `xccl_api_->getUniqueId` on rank 0, as serialized bytes -/
  genUniqueId : Except String (List Nat)
  /-- bytes returned by `store_->get` for a given key -/
  storeGet : String → List Nat
  /-- `commInitRankConfig` succeeded with a non-null communicator -/
  commInitOk : Bool
  /-- the closing-barrier `allReduce` returned `onecclSuccess` -/
  allReduceOk : Bool
  /-- `streamSynchronize` after the barrier returned success -/
  streamSyncOk : Bool

/-- Presence of the TCP-rendezvous environment variables. -/
structure EnvVars where
  masterAddr : Bool
  masterPort : Bool
  deriving DecidableEq, Repr

/-- `getXCCLStoreKey`: build `"xccl_storekey_" + counter` and post-increment
the process-wide counter. -/
def getXCCLStoreKey (counter : Nat) : String × Nat :=
  ("xccl_storekey_" ++ natToStr counter, counter + 1)

/-- `isTCPStoreEnabled`: both `MASTER_ADDR` and `MASTER_PORT` are set. -/
def isTCPStoreEnabled (env : EnvVars) : Bool :=
  env.masterAddr && env.masterPort

/-- `exchangeUniqueIdStore`: generate the store key, then on rank 0 generate
and publish the unique ID, on other ranks read it and validate its size. -/
def exchangeUniqueIdStore (w : World) (st : BootstrapState) :
    List Event × Except String (List Nat) × BootstrapState :=
  let key := (getXCCLStoreKey st.counter).1
  let st' := { st with counter := (getXCCLStoreKey st.counter).2 }
  if st'.rank = 0 then
    match w.genUniqueId with
    | .error e =>
      ([.backendGetUniqueId], .error ("Failed to get XCCL unique ID: " ++ e), st')
    | .ok idBytes =>
      ([.backendGetUniqueId, .storeSet key], .ok idBytes, st')
  else
    let vec := w.storeGet key
    if vec.length ≠ w.uniqueIdSize then
      ([.storeRead key], .error "Invalid XCCL unique ID size", st')
    else
      ([.storeRead key], .ok vec, st')

/-- `exchangeUniqueIdTCPStore`: acquire a store from the registry, mark it
internally created, then run the store exchange. -/
def exchangeUniqueIdTCPStore (w : World) (st : BootstrapState) :
    List Event × Except String (List Nat) × BootstrapState :=
  let r := exchangeUniqueIdStore w
    { st with storePresent := true, createdInternalStore := true }
  (Event.storeAcquire :: r.1, r.2.1, r.2.2)

/-- `exchangeUniqueId`: use the supplied store if any; otherwise validate the
exchange-method selector, then the rendezvous environment variables, then
fall back to the TCP store. -/
def exchangeUniqueId (w : World) (env : EnvVars) (st : BootstrapState) :
    List Event × Except String (List Nat) × BootstrapState :=
  if st.storePresent then
    exchangeUniqueIdStore w st
  else
    let isTcp := isTCPStoreEnabled env
    if st.uniqueidXchgMethod ≠ kUniqueidXchgMethodAuto ∧
        st.uniqueidXchgMethod ≠ kUniqueidXchgMethodTCPStore then
      ([], .error ("Invalid unique ID exchange method " ++ st.uniqueidXchgMethod), st)
    else if !isTcp then
      ([], .error "No way to exchange unique ID", st)
    else
      exchangeUniqueIdTCPStore w st

/-- `cleanupTCPStore`: when the store was internally created, drop the store
reference, run the barrier all-reduce (logging, not raising, its failure),
then synchronize the stream, where a failure raises via `XPU_CHECK`. -/
def cleanupTCPStore (w : World) (st : BootstrapState) :
    List Event × Except String Unit × BootstrapState :=
  if st.createdInternalStore then
    let st' := { st with storePresent := false }
    let evs0 := [Event.storeReset, Event.allReduceBarrier]
    let evs1 := if w.allReduceOk then evs0 else evs0 ++ [Event.logErrorAllReduce]
    let evs2 := evs1 ++ [Event.streamSync]
    if w.streamSyncOk then (evs2, .ok (), st')
    else (evs2, .error "Stream synchronization failed", st')
  else
    ([], .ok (), st)

/-- `createXcclComm`: exchange the unique ID, stamp the communicator name
into the config, translate hints, construct the backend communicator, then
run the closing teardown. The returned `Nat` models the non-null
communicator handle. -/
def createXcclComm (w : World) (env : EnvVars) (st : BootstrapState)
    (name : String) (hints : List (String × String)) (cfg0 : OneCCLConfig) :
    List Event × Except String Nat × BootstrapState :=
  let ex := exchangeUniqueId w env st
  match ex.2.1 with
  | .error e => (ex.1, .error e, ex.2.2)
  | .ok _ =>
    let pop := populateXcclConfigFromHints { cfg0 with commName := some name } hints name
    match pop.2 with
    | .error e => (ex.1 ++ pop.1, .error e, ex.2.2)
    | .ok _ =>
      if w.commInitOk then
        let cl := cleanupTCPStore w ex.2.2
        match cl.2.1 with
        | .error e =>
          (ex.1 ++ pop.1 ++ [Event.backendCommInit] ++ cl.1, .error e, cl.2.2)
        | .ok _ =>
          (ex.1 ++ pop.1 ++ [Event.backendCommInit] ++ cl.1, .ok 1, cl.2.2)
      else
        (ex.1 ++ pop.1 ++ [Event.backendCommInit],
         .error "Failed to initialize XCCL communicator", ex.2.2)

/-- Results of the device-runtime calls made by the constructor. -/
structure CtorWorld where
  /-- value of `TORCHCOMM_XCCL_BOOTSTRAP_UNIQUEID_EXCHANGE_METHOD` -/
  envMethod : Option String
  /-- device count reported by `getDeviceCount` when it succeeds -/
  deviceCount : Nat
  getDeviceCountOk : Bool
  setDeviceOk : Bool
  mallocOk : Bool

/-- The `TorchCommXCCLBootstrap` constructor: resolve and lower-case the
exchange-method selector, assign `rank % deviceCount` when the device index
is the `-1` sentinel, select the device, and allocate the barrier buffer.
`counter0` is the current value of the process-wide static counter. -/
def constructBootstrap (cw : CtorWorld) (storeSupplied : Bool)
    (rank size : Nat) (deviceIndex : Int) (counter0 : Nat) :
    Except String BootstrapState :=
  let method := strToLower (cw.envMethod.getD kUniqueidXchgMethodDefault)
  let devRes : Except String Int :=
    if deviceIndex = -1 then
      if cw.getDeviceCountOk then .ok ((rank % cw.deviceCount : Nat) : Int)
      else .error "Failed to get XPU device count"
    else .ok deviceIndex
  match devRes with
  | .error e => .error e
  | .ok idx =>
    if !cw.setDeviceOk then .error "Failed to set device"
    else if !cw.mallocOk then .error "Failed to allocate barrier buffer"
    else .ok
      { rank := rank
        commSize := size
        storePresent := storeSupplied
        createdInternalStore := false
        uniqueidXchgMethod := method
        deviceIndex := idx
        counter := counter0 }

/-- The destructor frees the barrier scratch buffer and touches nothing
else; in particular it never emits a store event. -/
def destructorEvents : List Event := [Event.freeBuffer]

/-- Value of the process-wide counter after `n` identifier-exchange key
generations starting from counter value `c`. -/
def counterAfter (c : Nat) : Nat → Nat
  | 0 => c
  | n + 1 => (getXCCLStoreKey (counterAfter c n)).2

/-- The store key generated by the `n`-th (0-based) exchange call in a
process whose counter started at `c`. -/
def keyOfCall (c n : Nat) : String := (getXCCLStoreKey (counterAfter c n)).1

/-- Numeric suffix of a store key: the decimal value after the fixed
14-character stem `"xccl_storekey_"`. -/
def keySuffixValue (k : String) : Nat := decDigits (k.data.drop 14)

end TorchCommXCCL

namespace XpuApi

/-- The Level Zero status codes this model distinguishes. -/
inductive ZeResult where
  | success
  | errorUninitialized
  | errorInvalidArgument
  | errorInvalidNullPointer
  | other
  deriving DecidableEq, Repr

/-- What the model needs to know about one enumerated device: whether
`zeDeviceGetProperties` succeeds on it and whether its properties carry
`ZE_DEVICE_PROPERTY_FLAG_INTEGRATED`. -/
structure ZeDevice where
  propsOk : Bool
  integrated : Bool
  deriving DecidableEq, Repr

/-- The `is_igpu` lambda of `initLevelZero`: a device counts as an iGPU when
its properties can be read and carry the integrated flag; a failed property
query counts as "not iGPU". -/
def isIgpu (d : ZeDevice) : Bool := d.propsOk && d.integrated

/-- Results of the Level Zero driver calls made during initialization. -/
structure ZeWorld where
  /-- `zeInitDrivers` succeeded with a nonzero driver count and the device
  enumeration on the chosen driver succeeded -/
  driversOk : Bool
  /-- the devices enumerated from the first driver that reported any -/
  allDevices : List ZeDevice
  /-- `zeContextCreate` succeeded -/
  contextCreateOk : Bool

/-- `initLevelZero`: enumerate devices, fail `ZE_RESULT_ERROR_UNINITIALIZED`
when none are found or when every device is an integrated GPU, otherwise
keep only the discrete GPUs and create the context. -/
def initLevelZero (zw : ZeWorld) : Except ZeResult (List ZeDevice) :=
  if !zw.driversOk then .error .errorUninitialized
  else if zw.allDevices.isEmpty then .error .errorUninitialized
  else if zw.allDevices.all isIgpu then .error .errorUninitialized
  else
    let dgpus := zw.allDevices.filter (fun d => !isIgpu d)
    if zw.contextCreateOk then .ok dgpus else .error .other

/-- `DefaultXpuApi::getDeviceCount` with a non-null `count` pointer: run
initialization, then report the filtered device count. -/
def getDeviceCount (zw : ZeWorld) : Except ZeResult Nat :=
  match initLevelZero zw with
  | .error r => .error r
  | .ok devs => .ok devs.length

end XpuApi

namespace TorchCommXCCL

/-! ### Decimal-representation facts used for store-key uniqueness -/

theorem char_toNat_ofNat_digit : ∀ d : Nat, d < 10 →
    (Char.ofNat (48 + d)).toNat = 48 + d := by decide

theorem decDigits_append_singleton (ds : List Char) (c : Char) :
    decDigits (ds ++ [c]) = 10 * decDigits ds + (c.toNat - 48) := by
  simp [decDigits, List.foldl_append]

theorem decDigits_natDigits (n : Nat) : decDigits (natDigits n) = n := by
  induction n using Nat.strong_induction_on with
  | _ n ih =>
    rw [natDigits]
    by_cases h : n < 10
    · simp only [h, dite_true]
      simp [decDigits, char_toNat_ofNat_digit n h]
    · simp only [h, dite_false]
      rw [decDigits_append_singleton,
        ih (n / 10) (Nat.div_lt_self (by omega) (by omega)),
        char_toNat_ofNat_digit (n % 10) (Nat.mod_lt _ (by omega))]
      omega

theorem natToStr_injective : Function.Injective natToStr := by
  intro a b h
  have hd : natDigits a = natDigits b := congrArg String.data h
  have := congrArg decDigits hd
  rwa [decDigits_natDigits, decDigits_natDigits] at this

/-! ### Branch-shape lemmas for the exchange protocol -/

theorem exchangeUniqueIdStore_state (w : World) (st : BootstrapState) :
    (exchangeUniqueIdStore w st).2.2 = { st with counter := st.counter + 1 } := by
  unfold exchangeUniqueIdStore getXCCLStoreKey
  dsimp only
  split
  · split <;> rfl
  · split <;> rfl

theorem exchangeUniqueIdStore_badSize (w : World) (st : BootstrapState)
    (hr : st.rank ≠ 0)
    (hs : (w.storeGet (getXCCLStoreKey st.counter).1).length ≠ w.uniqueIdSize) :
    exchangeUniqueIdStore w st =
      ([.storeRead (getXCCLStoreKey st.counter).1],
       .error "Invalid XCCL unique ID size",
       { st with counter := st.counter + 1 }) := by
  have hs' : (w.storeGet ("xccl_storekey_" ++ natToStr st.counter)).length ≠
      w.uniqueIdSize := by simpa [getXCCLStoreKey] using hs
  unfold exchangeUniqueIdStore
  simp [hr, hs', getXCCLStoreKey]

theorem exchangeUniqueIdStore_events (w : World) (st : BootstrapState) :
    ∀ ev ∈ (exchangeUniqueIdStore w st).1,
      ev = .backendGetUniqueId ∨ (∃ k, ev = .storeSet k) ∨ ∃ k, ev = .storeRead k := by
  intro ev hev
  unfold exchangeUniqueIdStore at hev
  dsimp only at hev
  split at hev
  · split at hev
    · simp at hev
      exact .inl hev
    · simp at hev
      rcases hev with hev | hev
      · exact .inl hev
      · exact .inr (.inl ⟨_, hev⟩)
  · split at hev <;>
    · simp at hev
      exact .inr (.inr ⟨_, hev⟩)

theorem exchangeUniqueId_suppliedStore (w : World) (env : EnvVars)
    (st : BootstrapState) (h : st.storePresent = true) :
    exchangeUniqueId w env st = exchangeUniqueIdStore w st := by
  unfold exchangeUniqueId
  simp [h]

theorem exchangeUniqueId_invalidMethod (w : World) (env : EnvVars)
    (st : BootstrapState) (h : st.storePresent = false)
    (hm : st.uniqueidXchgMethod ≠ kUniqueidXchgMethodAuto ∧
      st.uniqueidXchgMethod ≠ kUniqueidXchgMethodTCPStore) :
    exchangeUniqueId w env st =
      ([], .error ("Invalid unique ID exchange method " ++ st.uniqueidXchgMethod), st) := by
  unfold exchangeUniqueId
  simp [h, hm]

theorem exchangeUniqueId_noTransport (w : World) (env : EnvVars)
    (st : BootstrapState) (h : st.storePresent = false)
    (hm : st.uniqueidXchgMethod = kUniqueidXchgMethodAuto ∨
      st.uniqueidXchgMethod = kUniqueidXchgMethodTCPStore)
    (ht : isTCPStoreEnabled env = false) :
    exchangeUniqueId w env st = ([], .error "No way to exchange unique ID", st) := by
  unfold exchangeUniqueId
  rcases hm with hm | hm <;> simp [h, hm, ht, kUniqueidXchgMethodAuto, kUniqueidXchgMethodTCPStore]

theorem exchangeUniqueId_tcpPath (w : World) (env : EnvVars)
    (st : BootstrapState) (h : st.storePresent = false)
    (hm : st.uniqueidXchgMethod = kUniqueidXchgMethodAuto ∨
      st.uniqueidXchgMethod = kUniqueidXchgMethodTCPStore)
    (ht : isTCPStoreEnabled env = true) :
    exchangeUniqueId w env st = exchangeUniqueIdTCPStore w st := by
  unfold exchangeUniqueId
  rcases hm with hm | hm <;> simp [h, hm, ht, kUniqueidXchgMethodAuto, kUniqueidXchgMethodTCPStore]

theorem cleanupTCPStore_external (w : World) (st : BootstrapState)
    (h : st.createdInternalStore = false) :
    cleanupTCPStore w st = ([], .ok (), st) := by
  unfold cleanupTCPStore
  simp [h]

/-! ### Event-shape lemmas for hint translation -/

theorem setIntHint_events (set : Int → OneCCLConfig) (val : String) :
    (setIntHint set val).1 = [] := by
  unfold setIntHint
  cases stoi val <;> rfl

theorem setIntHint_error_eq (set : Int → OneCCLConfig) (val e : String)
    (h : (setIntHint set val).2 = .error e) : e = stoiErrMsg := by
  unfold setIntHint at h
  cases hst : stoi val <;> simp [hst] at h
  exact h.symm

theorem applyHint_unknown (name : String) (cfg : OneCCLConfig) (k val : String)
    (h : k ∉ recognizedKeys) :
    applyHint name cfg k val = ([.warnUnknownHint k name], .ok cfg) := by
  simp only [recognizedKeys, List.mem_cons, List.not_mem_nil, or_false, not_or] at h
  obtain ⟨h1, h2, h3, h4, h5, h6, h7, h8, h9, h10, h11, h12, h13, h14, h15, h16,
    h17, h18, h19, h20, h21, h22, h23, h24⟩ := h
  unfold applyHint
  simp [h1, h2, h3, h4, h5, h6, h7, h8, h9, h10, h11, h12, h13, h14, h15, h16,
    h17, h18, h19, h20, h21, h22, h23, h24]

theorem applyHint_badInt (name : String) (cfg : OneCCLConfig) (k v : String)
    (hk : k ∈ intHintKeys) (hv : stoi v = none) :
    applyHint name cfg k v = ([], .error stoiErrMsg) := by
  simp only [intHintKeys, List.mem_cons, List.not_mem_nil, or_false] at hk
  rcases hk with rfl | rfl | rfl | rfl | rfl | rfl | rfl | rfl | rfl | rfl | rfl |
    rfl | rfl | rfl | rfl | rfl | rfl | rfl | rfl | rfl | rfl | rfl <;>
    simp [applyHint, setIntHint, hv]

theorem applyHint_events (name : String) (cfg : OneCCLConfig) (k v : String) :
    ∀ ev ∈ (applyHint name cfg k v).1, ∃ key nm, ev = .warnUnknownHint key nm := by
  intro ev hev
  by_cases hk : k ∈ recognizedKeys
  · simp only [recognizedKeys, List.mem_cons, List.not_mem_nil, or_false] at hk
    rcases hk with rfl | rfl | rfl | rfl | rfl | rfl | rfl | rfl | rfl | rfl | rfl |
      rfl | rfl | rfl | rfl | rfl | rfl | rfl | rfl | rfl | rfl | rfl | rfl | rfl <;>
      simp [applyHint, setIntHint_events] at hev
  · rw [applyHint_unknown name cfg k v hk] at hev
    simp at hev
    exact ⟨k, name, hev⟩

theorem applyHint_error_eq (name : String) (cfg : OneCCLConfig) (k v e : String)
    (h : (applyHint name cfg k v).2 = .error e) : e = stoiErrMsg := by
  by_cases hk : k ∈ recognizedKeys
  · simp only [recognizedKeys, List.mem_cons, List.not_mem_nil, or_false] at hk
    rcases hk with rfl | rfl | rfl | rfl | rfl | rfl | rfl | rfl | rfl | rfl | rfl |
      rfl | rfl | rfl | rfl | rfl | rfl | rfl | rfl | rfl | rfl | rfl | rfl | rfl <;>
      simp [applyHint] at h <;>
      exact setIntHint_error_eq _ _ _ h
  · rw [applyHint_unknown name cfg k v hk] at h
    simp at h

theorem populateXcclConfigFromHints_unknown_step (cfg : OneCCLConfig)
    (rest : List (String × String)) (name k v : String)
    (h : k ∉ recognizedKeys) :
    populateXcclConfigFromHints cfg ((k, v) :: rest) name =
      (Event.warnUnknownHint k name :: (populateXcclConfigFromHints cfg rest name).1,
       (populateXcclConfigFromHints cfg rest name).2) := by
  rw [populateXcclConfigFromHints]
  simp [applyHint_unknown name cfg k v h]

theorem populateXcclConfigFromHints_badInt (cfg : OneCCLConfig)
    (hints : List (String × String)) (name : String)
    (h : ∃ kv ∈ hints, kv.1 ∈ intHintKeys ∧ stoi kv.2 = none) :
    (populateXcclConfigFromHints cfg hints name).2 = .error stoiErrMsg := by
  induction hints generalizing cfg with
  | nil =>
    rcases h with ⟨kv, hmem, _⟩
    cases hmem
  | cons kv rest ih =>
    obtain ⟨k, v⟩ := kv
    rcases h with ⟨kv', hmem, hbad⟩
    rw [populateXcclConfigFromHints]
    dsimp only
    rcases List.mem_cons.mp hmem with heq | hmem'
    · rw [heq] at hbad
      rw [applyHint_badInt name cfg k v hbad.1 hbad.2]
    · cases hah : (applyHint name cfg k v).2 with
      | error e =>
        simp only [hah]
        simpa using applyHint_error_eq name cfg k v e hah
      | ok cfg' =>
        simp only [hah]
        exact ih cfg' ⟨kv', hmem', hbad⟩

theorem populateXcclConfigFromHints_events (cfg : OneCCLConfig)
    (hints : List (String × String)) (name : String) :
    ∀ ev ∈ (populateXcclConfigFromHints cfg hints name).1,
      ∃ key nm, ev = .warnUnknownHint key nm := by
  induction hints generalizing cfg with
  | nil => intro ev hev; simp [populateXcclConfigFromHints] at hev
  | cons kv rest ih =>
    intro ev hev
    unfold populateXcclConfigFromHints at hev
    dsimp only at hev
    split at hev
    · exact applyHint_events name cfg kv.1 kv.2 ev hev
    · rw [List.mem_append] at hev
      rcases hev with hev | hev
      · exact applyHint_events name cfg kv.1 kv.2 ev hev
      · exact ih _ ev hev

/-! ### State-preservation lemmas -/

theorem exchangeUniqueIdTCPStore_state (w : World) (st : BootstrapState) :
    (exchangeUniqueIdTCPStore w st).2.2 =
      { st with storePresent := true, createdInternalStore := true,
                counter := st.counter + 1 } := by
  unfold exchangeUniqueIdTCPStore
  dsimp only
  rw [exchangeUniqueIdStore_state]

theorem exchangeUniqueId_deviceIndex (w : World) (env : EnvVars)
    (st : BootstrapState) :
    (exchangeUniqueId w env st).2.2.deviceIndex = st.deviceIndex := by
  unfold exchangeUniqueId
  dsimp only
  split
  · rw [exchangeUniqueIdStore_state]
  · split
    · rfl
    · split
      · rfl
      · rw [exchangeUniqueIdTCPStore_state]

theorem cleanupTCPStore_deviceIndex (w : World) (st : BootstrapState) :
    (cleanupTCPStore w st).2.2.deviceIndex = st.deviceIndex := by
  unfold cleanupTCPStore
  dsimp only
  split
  · split <;> rfl
  · rfl

theorem createXcclComm_deviceIndex (w : World) (env : EnvVars)
    (st : BootstrapState) (name : String) (hints : List (String × String))
    (cfg0 : OneCCLConfig) :
    (createXcclComm w env st name hints cfg0).2.2.deviceIndex = st.deviceIndex := by
  unfold createXcclComm
  dsimp only
  split
  · exact exchangeUniqueId_deviceIndex w env st
  · split
    · exact exchangeUniqueId_deviceIndex w env st
    · split
      · split
        · rw [cleanupTCPStore_deviceIndex]
          exact exchangeUniqueId_deviceIndex w env st
        · rw [cleanupTCPStore_deviceIndex]
          exact exchangeUniqueId_deviceIndex w env st
      · exact exchangeUniqueId_deviceIndex w env st

theorem createXcclComm_state_supplied (w : World) (env : EnvVars)
    (st : BootstrapState) (name : String) (hints : List (String × String))
    (cfg0 : OneCCLConfig) (hs : st.storePresent = true)
    (hc : st.createdInternalStore = false) :
    (createXcclComm w env st name hints cfg0).2.2 =
      { st with counter := st.counter + 1 } := by
  have hex : (exchangeUniqueId w env st).2.2 = { st with counter := st.counter + 1 } := by
    rw [exchangeUniqueId_suppliedStore w env st hs, exchangeUniqueIdStore_state]
  have hcl : cleanupTCPStore w (exchangeUniqueId w env st).2.2 =
      ([], .ok (), (exchangeUniqueId w env st).2.2) := by
    apply cleanupTCPStore_external
    rw [hex]
    exact hc
  unfold createXcclComm
  dsimp only
  split
  · exact hex
  · split
    · exact hex
    · split
      · rw [hcl]
        exact hex
      · exact hex

theorem createXcclComm_events_supplied (w : World) (env : EnvVars)
    (st : BootstrapState) (name : String) (hints : List (String × String))
    (cfg0 : OneCCLConfig) (hs : st.storePresent = true)
    (hc : st.createdInternalStore = false) :
    ∀ ev ∈ (createXcclComm w env st name hints cfg0).1,
      ev = .backendGetUniqueId ∨ (∃ k, ev = .storeSet k) ∨ (∃ k, ev = .storeRead k) ∨
      (∃ k nm, ev = .warnUnknownHint k nm) ∨ ev = .backendCommInit := by
  intro ev hev
  have hex : exchangeUniqueId w env st = exchangeUniqueIdStore w st :=
    exchangeUniqueId_suppliedStore w env st hs
  have hxev : ∀ ev ∈ (exchangeUniqueId w env st).1,
      ev = .backendGetUniqueId ∨ (∃ k, ev = .storeSet k) ∨ ∃ k, ev = .storeRead k := by
    rw [hex]; exact exchangeUniqueIdStore_events w st
  have hcl : cleanupTCPStore w (exchangeUniqueId w env st).2.2 =
      ([], .ok (), (exchangeUniqueId w env st).2.2) := by
    apply cleanupTCPStore_external
    rw [hex, exchangeUniqueIdStore_state]
    exact hc
  have hpev := populateXcclConfigFromHints_events
    { cfg0 with commName := some name } hints name
  unfold createXcclComm at hev
  dsimp only at hev
  split at hev
  · rcases hxev ev hev with h | h | h
    · exact .inl h
    · exact .inr (.inl h)
    · exact .inr (.inr (.inl h))
  · split at hev
    · rcases List.mem_append.mp hev with h | h
      · rcases hxev ev h with h' | h' | h'
        · exact .inl h'
        · exact .inr (.inl h')
        · exact .inr (.inr (.inl h'))
      · exact .inr (.inr (.inr (.inl (hpev ev h))))
    · split at hev
      · rw [hcl] at hev
        split at hev <;>
        · simp only [List.append_nil, List.mem_append] at hev
          rcases hev with (h | h) | h
          · rcases hxev ev h with h' | h' | h'
            · exact .inl h'
            · exact .inr (.inl h')
            · exact .inr (.inr (.inl h'))
          · exact .inr (.inr (.inr (.inl (hpev ev h))))
          · simp at h
            exact .inr (.inr (.inr (.inr h)))
      · simp only [List.mem_append] at hev
        rcases hev with (h | h) | h
        · rcases hxev ev h with h' | h' | h'
          · exact .inl h'
          · exact .inr (.inl h')
          · exact .inr (.inr (.inl h'))
        · exact .inr (.inr (.inr (.inl (hpev ev h))))
        · simp at h
          exact .inr (.inr (.inr (.inr h)))

/-! ### Store-key sequence facts -/

theorem counterAfter_eq (c n : Nat) : counterAfter c n = c + n := by
  induction n with
  | zero => rfl
  | succ n ih =>
    show (getXCCLStoreKey (counterAfter c n)).2 = c + (n + 1)
    rw [ih]
    simp [getXCCLStoreKey]
    omega

theorem keyOfCall_eq (c n : Nat) :
    keyOfCall c n = "xccl_storekey_" ++ natToStr (c + n) := by
  rw [keyOfCall, counterAfter_eq]
  rfl

theorem keySuffixValue_key (m : Nat) :
    keySuffixValue ("xccl_storekey_" ++ natToStr m) = m := by
  unfold keySuffixValue
  rw [String.data_append]
  have h14 : (14 : Nat) = "xccl_storekey_".data.length := rfl
  rw [h14, List.drop_left]
  exact decDigits_natDigits m

theorem keySuffixValue_keyOfCall (c n : Nat) :
    keySuffixValue (keyOfCall c n) = c + n := by
  rw [keyOfCall_eq, keySuffixValue_key]

theorem exchangeUniqueIdStore_method_irrel (w : World) (st : BootstrapState)
    (m : String) :
    (exchangeUniqueIdStore w { st with uniqueidXchgMethod := m }).1 =
      (exchangeUniqueIdStore w st).1 ∧
    (exchangeUniqueIdStore w { st with uniqueidXchgMethod := m }).2.1 =
      (exchangeUniqueIdStore w st).2.1 := by
  unfold exchangeUniqueIdStore
  dsimp only
  by_cases hr : st.rank = 0
  · simp only [hr, if_pos]
    cases w.genUniqueId <;> simp
  · simp only [hr, if_neg, ite_false]
    by_cases hlen : (w.storeGet (getXCCLStoreKey st.counter).1).length = w.uniqueIdSize <;>
      simp [hlen]

/-! ### Claim theorems -/

/-- C5: every identifier-exchange call generates the key
`"xccl_storekey_" + counter` and increments the process-wide counter by
exactly one, so distinct exchange calls use distinct store keys and the
numeric suffixes of the generated keys are strictly increasing in call
order. -/
theorem storeKey_unique_strictly_increasing :
    (∀ c n, counterAfter c (n + 1) = counterAfter c n + 1) ∧
    (∀ c n, keyOfCall c n = "xccl_storekey_" ++ natToStr (c + n)) ∧
    (∀ c i j, i ≠ j → keyOfCall c i ≠ keyOfCall c j) ∧
    (∀ c i j, i < j → keySuffixValue (keyOfCall c i) < keySuffixValue (keyOfCall c j)) ∧
    (∀ w st, (exchangeUniqueIdStore w st).2.2.counter = st.counter + 1) ∧
    (∀ w st, st.rank ≠ 0 →
      Event.storeRead (getXCCLStoreKey st.counter).1 ∈ (exchangeUniqueIdStore w st).1) ∧
    (∀ w st idBytes, st.rank = 0 → w.genUniqueId = .ok idBytes →
      Event.storeSet (getXCCLStoreKey st.counter).1 ∈ (exchangeUniqueIdStore w st).1) := by
  refine ⟨?_, ?_, ?_, ?_, ?_, ?_, ?_⟩
  · intro c n
    rfl
  · intro c n
    exact keyOfCall_eq c n
  · intro c i j hij heq
    apply hij
    have h := congrArg keySuffixValue heq
    rw [keySuffixValue_keyOfCall, keySuffixValue_keyOfCall] at h
    omega
  · intro c i j hij
    rw [keySuffixValue_keyOfCall, keySuffixValue_keyOfCall]
    omega
  · intro w st
    rw [exchangeUniqueIdStore_state]
  · intro w st hr
    unfold exchangeUniqueIdStore
    simp [hr]
    split <;> simp
  · intro w st idBytes hr hgen
    unfold exchangeUniqueIdStore
    simp [hr, hgen]

/-- C5 witness: two consecutive exchange calls starting at counter 0 use
different keys with strictly increasing numeric suffixes. -/
theorem storeKey_unique_strictly_increasing_witness :
    keyOfCall 0 0 ≠ keyOfCall 0 1 ∧
    keySuffixValue (keyOfCall 0 0) < keySuffixValue (keyOfCall 0 1) :=
  ⟨storeKey_unique_strictly_increasing.2.2.1 0 0 1 (by decide),
   storeKey_unique_strictly_increasing.2.2.2.1 0 0 1 (by decide)⟩

/-- C6: a coordinator constructed with the `-1` device-index sentinel and a
positive device count gets assigned device `rank % deviceCount`, and the
assignment is unchanged by a subsequent `createXcclComm` run. -/
theorem deviceAssignment_rank_mod (cw : CtorWorld) (storeSupplied : Bool)
    (rank size counter0 : Nat) (st : BootstrapState)
    (_hdc : 0 < cw.deviceCount)
    (hctor : constructBootstrap cw storeSupplied rank size (-1) counter0 = .ok st) :
    st.deviceIndex = ((rank % cw.deviceCount : Nat) : Int) ∧
    ∀ w env name hints cfg0,
      (createXcclComm w env st name hints cfg0).2.2.deviceIndex = st.deviceIndex := by
  refine ⟨?_, fun w env name hints cfg0 => createXcclComm_deviceIndex w env st name hints cfg0⟩
  unfold constructBootstrap at hctor
  dsimp only at hctor
  rw [if_pos rfl] at hctor
  by_cases hg : cw.getDeviceCountOk
  · rw [if_pos hg] at hctor
    by_cases hset : cw.setDeviceOk
    · by_cases hmal : cw.mallocOk
      · simp [hset, hmal] at hctor
        rw [← hctor]
        dsimp only
        omega
      · simp [hset, hmal] at hctor
    · simp [hset] at hctor
  · rw [if_neg hg] at hctor
    cases hctor

/-- C6 witness: rank 3 with 2 devices and no explicit device index is
assigned device `3 % 2 = 1`. -/
theorem deviceAssignment_rank_mod_witness :
    ∃ st, constructBootstrap ⟨none, 2, true, true, true⟩ false 3 4 (-1) 0 = .ok st ∧
      st.deviceIndex = ((3 % 2 : Nat) : Int) := by
  refine ⟨_, rfl, ?_⟩
  exact (deviceAssignment_rank_mod ⟨none, 2, true, true, true⟩ false 3 4 0 _
    (by decide) rfl).1

/-- C9: construction resolves the exchange-method selector from the
environment override (default "auto") and lower-cases it but never
validates it — construction succeeds for every selector string — and on
the supplied-store path the selector is never consulted: the events and
result of the identifier exchange are unchanged by any change of the
selector. -/
theorem selector_unvalidated_at_construction :
    (∀ (cw : CtorWorld) (storeSupplied : Bool) (rank size : Nat)
        (idx : Int) (c0 : Nat),
      cw.getDeviceCountOk = true → cw.setDeviceOk = true → cw.mallocOk = true →
      ∃ st, constructBootstrap cw storeSupplied rank size idx c0 = .ok st ∧
        st.uniqueidXchgMethod = strToLower (cw.envMethod.getD kUniqueidXchgMethodDefault)) ∧
    (∀ (w : World) (env : EnvVars) (st : BootstrapState) (m : String),
      st.storePresent = true →
      (exchangeUniqueId w env { st with uniqueidXchgMethod := m }).1 =
        (exchangeUniqueId w env st).1 ∧
      (exchangeUniqueId w env { st with uniqueidXchgMethod := m }).2.1 =
        (exchangeUniqueId w env st).2.1) := by
  constructor
  · intro cw storeSupplied rank size idx c0 hg hset hmal
    unfold constructBootstrap
    by_cases hidx : idx = -1 <;>
      simp [hidx, hg, hset, hmal]
  · intro w env st m hs
    rw [exchangeUniqueId_suppliedStore w env _ (by simpa using hs),
      exchangeUniqueId_suppliedStore w env st hs]
    exact exchangeUniqueIdStore_method_irrel w st m

/-- C9 witness: construction with the invalid selector override `"BOGUS"`
still succeeds, storing its lower-cased form. -/
theorem selector_unvalidated_at_construction_witness :
    ∃ st, constructBootstrap ⟨some "BOGUS", 4, true, true, true⟩ false 1 2 (-1) 0 = .ok st ∧
      st.uniqueidXchgMethod =
        strToLower ((some "BOGUS").getD kUniqueidXchgMethodDefault) :=
  selector_unvalidated_at_construction.1 ⟨some "BOGUS", 4, true, true, true⟩
    false 1 2 (-1) 0 rfl rfl rfl

/-- C3 counterexample: the snake_case spelling `"net_name"` is not
recognized — it falls through to the unknown-key warning and leaves the
`netName` field unchanged — while `"netName"` is recognized and sets the
field. -/
theorem hint_net_name_snake_unrecognized :
    applyHint "c" defaultConfig "net_name" "eth0" =
      ([.warnUnknownHint "net_name" "c"], .ok defaultConfig) ∧
    (applyHint "c" defaultConfig "netName" "eth0").2 =
      .ok { defaultConfig with netName := some "eth0" } := by
  constructor <;> rfl

/-- C3 amended: the integer-typed tunables with two spellings in the source
(`cga_cluster_size`, `min_ctas`, `max_ctas`, `split_share`,
`traffic_class`, `collnet_enable`, `cta_policy`, `nvls_ctas`,
`n_channels_per_net_peer`, `nvlink_centric_sched`) are treated identically
to their camelCase forms; but `netName`, `commName` and `shrinkShare` are
recognized only in camelCase — their snake_case spellings fall through to
the unknown-key warning and leave the configuration unchanged. -/
theorem hint_dual_spelling :
    (∀ name cfg val,
      applyHint name cfg "cga_cluster_size" val = applyHint name cfg "cgaClusterSize" val ∧
      applyHint name cfg "min_ctas" val = applyHint name cfg "minCTAs" val ∧
      applyHint name cfg "max_ctas" val = applyHint name cfg "maxCTAs" val ∧
      applyHint name cfg "split_share" val = applyHint name cfg "splitShare" val ∧
      applyHint name cfg "traffic_class" val = applyHint name cfg "trafficClass" val ∧
      applyHint name cfg "collnet_enable" val = applyHint name cfg "collnetEnable" val ∧
      applyHint name cfg "cta_policy" val = applyHint name cfg "CTAPolicy" val ∧
      applyHint name cfg "nvls_ctas" val = applyHint name cfg "nvlsCTAs" val ∧
      applyHint name cfg "n_channels_per_net_peer" val =
        applyHint name cfg "nChannelsPerNetPeer" val ∧
      applyHint name cfg "nvlink_centric_sched" val =
        applyHint name cfg "nvlinkCentricSched" val) ∧
    (∀ name cfg val,
      applyHint name cfg "net_name" val = ([.warnUnknownHint "net_name" name], .ok cfg) ∧
      applyHint name cfg "comm_name" val = ([.warnUnknownHint "comm_name" name], .ok cfg) ∧
      applyHint name cfg "shrink_share" val =
        ([.warnUnknownHint "shrink_share" name], .ok cfg)) ∧
    (∀ name cfg val,
      applyHint name cfg "netName" val = ([], .ok { cfg with netName := some val }) ∧
      applyHint name cfg "commName" val = ([], .ok { cfg with commName := some val }) ∧
      applyHint name cfg "shrinkShare" val =
        setIntHint (fun v => { cfg with shrinkShare := v }) val) := by
  refine ⟨fun name cfg val => ?_, fun name cfg val => ?_, fun name cfg val => ?_⟩
  · refine ⟨?_, ?_, ?_, ?_, ?_, ?_, ?_, ?_, ?_, ?_⟩ <;> simp [applyHint]
  · refine ⟨?_, ?_, ?_⟩ <;>
      exact applyHint_unknown name cfg _ val (by decide)
  · refine ⟨?_, ?_, ?_⟩ <;> simp [applyHint]

end TorchCommXCCL


namespace XpuApi

/-- C10: after successful Level Zero initialization the reported device
count covers exactly the devices not detected as integrated GPUs, and on a
system where every enumerated device is a (property-readable) integrated
GPU, initialization fails with the uninitialized-error status, which
`getDeviceCount` then returns instead of a zero count. -/
theorem deviceCount_excludes_integrated :
    (∀ (zw : ZeWorld) (devs : List ZeDevice), initLevelZero zw = .ok devs →
      getDeviceCount zw = .ok ((zw.allDevices.filter (fun d => !isIgpu d)).length) ∧
      ∀ d ∈ devs, isIgpu d = false) ∧
    (∀ zw : ZeWorld, zw.driversOk = true → zw.allDevices ≠ [] →
      (∀ d ∈ zw.allDevices, d.propsOk = true ∧ d.integrated = true) →
      getDeviceCount zw = .error .errorUninitialized) := by
  constructor
  · intro zw devs h
    have hdevs : devs = zw.allDevices.filter (fun d => !isIgpu d) := by
      unfold initLevelZero at h
      split at h
      · cases h
      · split at h
        · cases h
        · split at h
          · cases h
          · split at h
            · exact (Except.ok.injEq _ _ ▸ congrArg id h).symm ▸ rfl
            · cases h
    constructor
    · unfold getDeviceCount
      rw [h, hdevs]
    · intro d hd
      rw [hdevs] at hd
      have := List.mem_filter.mp hd
      simpa using this.2
  · intro zw h1 h2 h3
    have hne : zw.allDevices.isEmpty = false := by
      cases hD : zw.allDevices with
      | nil => exact absurd hD h2
      | cons a l => rfl
    have hall : zw.allDevices.all isIgpu = true := by
      rw [List.all_eq_true]
      intro d hd
      obtain ⟨hp, hi⟩ := h3 d hd
      simp [isIgpu, hp, hi]
    unfold getDeviceCount initLevelZero
    simp [h1, hne, hall]

/-- C10 witness: one discrete and one integrated device give count 1; a
single integrated device makes initialization fail uninitialized. -/
theorem deviceCount_excludes_integrated_witness :
    getDeviceCount ⟨true, [⟨true, false⟩, ⟨true, true⟩], true⟩ = .ok 1 ∧
    getDeviceCount ⟨true, [⟨true, true⟩], true⟩ = .error .errorUninitialized := by
  constructor
  · have h := (deviceCount_excludes_integrated.1
      ⟨true, [⟨true, false⟩, ⟨true, true⟩], true⟩ [⟨true, false⟩] rfl).1
    simpa using h
  · exact deviceCount_excludes_integrated.2 ⟨true, [⟨true, true⟩], true⟩ rfl
      (by decide) (by decide)

end XpuApi

namespace TorchCommXCCL

theorem exchangeUniqueId_events (w : World) (env : EnvVars) (st : BootstrapState) :
    ∀ ev ∈ (exchangeUniqueId w env st).1,
      ev = .backendGetUniqueId ∨ (∃ k, ev = .storeSet k) ∨ (∃ k, ev = .storeRead k) ∨
      ev = .storeAcquire := by
  intro ev hev
  unfold exchangeUniqueId at hev
  dsimp only at hev
  split at hev
  · rcases exchangeUniqueIdStore_events w st ev hev with h | h | h
    · exact .inl h
    · exact .inr (.inl h)
    · exact .inr (.inr (.inl h))
  · split at hev
    · simp at hev
    · split at hev
      · simp at hev
      · unfold exchangeUniqueIdTCPStore at hev
        dsimp only at hev
        rcases List.mem_cons.mp hev with h | h
        · exact .inr (.inr (.inr h))
        · rcases exchangeUniqueIdStore_events w _ ev h with h' | h' | h'
          · exact .inl h'
          · exact .inr (.inl h')
          · exact .inr (.inr (.inl h'))

/-- C1: with no supplied store, `createXcclComm` first rejects an
exchange-method selector other than "auto"/"tcpstore" with the
invalid-method error — before touching any store and regardless of the
environment variables — and with a legal selector but incomplete
`MASTER_ADDR`/`MASTER_PORT` it fails with "No way to exchange unique ID". -/
theorem selector_checked_before_env (w : World) (env : EnvVars)
    (st : BootstrapState) (name : String) (hints : List (String × String))
    (cfg0 : OneCCLConfig) (hstore : st.storePresent = false) :
    (st.uniqueidXchgMethod ≠ "auto" → st.uniqueidXchgMethod ≠ "tcpstore" →
      (createXcclComm w env st name hints cfg0).2.1 =
        .error ("Invalid unique ID exchange method " ++ st.uniqueidXchgMethod) ∧
      (createXcclComm w env st name hints cfg0).1 = []) ∧
    ((st.uniqueidXchgMethod = "auto" ∨ st.uniqueidXchgMethod = "tcpstore") →
      isTCPStoreEnabled env = false →
      (createXcclComm w env st name hints cfg0).2.1 =
        .error "No way to exchange unique ID" ∧
      (createXcclComm w env st name hints cfg0).1 = []) := by
  constructor
  · intro hm1 hm2
    have hx := exchangeUniqueId_invalidMethod w env st hstore ⟨hm1, hm2⟩
    constructor <;> simp [createXcclComm, hx]
  · intro hm ht
    have hx := exchangeUniqueId_noTransport w env st hstore hm ht
    constructor <;> simp [createXcclComm, hx]

/-- C1 witness: selector "bogus" yields the invalid-method error with an
empty trace even though the environment variables are set; selector "auto"
without the environment variables yields the no-transport error. -/
theorem selector_checked_before_env_witness :
    ((createXcclComm
        ⟨16, .ok [], fun _ => [], true, true, true⟩ ⟨true, true⟩
        ⟨0, 2, false, false, "bogus", 0, 0⟩ "c" [] defaultConfig).2.1 =
      .error ("Invalid unique ID exchange method " ++ "bogus") ∧
     (createXcclComm
        ⟨16, .ok [], fun _ => [], true, true, true⟩ ⟨true, true⟩
        ⟨0, 2, false, false, "bogus", 0, 0⟩ "c" [] defaultConfig).1 = []) ∧
    (createXcclComm
        ⟨16, .ok [], fun _ => [], true, true, true⟩ ⟨false, true⟩
        ⟨0, 2, false, false, "auto", 0, 0⟩ "c" [] defaultConfig).2.1 =
      .error "No way to exchange unique ID" := by
  constructor
  · exact (selector_checked_before_env ⟨16, .ok [], fun _ => [], true, true, true⟩
      ⟨true, true⟩ ⟨0, 2, false, false, "bogus", 0, 0⟩ "c" [] defaultConfig rfl).1
      (by decide) (by decide)
  · exact ((selector_checked_before_env ⟨16, .ok [], fun _ => [], true, true, true⟩
      ⟨false, true⟩ ⟨0, 2, false, false, "auto", 0, 0⟩ "c" [] defaultConfig rfl).2
      (by simp) (by decide)).1

end TorchCommXCCL

namespace TorchCommXCCL

/-- C2: on a rank other than 0, the identifier exchange reads the value
under the generated store key and, when the byte length differs from the
identity size, `createXcclComm` fails with "Invalid XCCL unique ID size"
without invoking `getUniqueId` or `commInitRankConfig`. -/
theorem uniqueId_size_validated (w : World) (env : EnvVars)
    (st : BootstrapState) (name : String) (hints : List (String × String))
    (cfg0 : OneCCLConfig)
    (hrank : st.rank ≠ 0)
    (hpath : st.storePresent = true ∨
      (st.storePresent = false ∧
       (st.uniqueidXchgMethod = kUniqueidXchgMethodAuto ∨
        st.uniqueidXchgMethod = kUniqueidXchgMethodTCPStore) ∧
       isTCPStoreEnabled env = true))
    (hsize : (w.storeGet (getXCCLStoreKey st.counter).1).length ≠ w.uniqueIdSize) :
    (createXcclComm w env st name hints cfg0).2.1 = .error "Invalid XCCL unique ID size" ∧
    Event.storeRead (getXCCLStoreKey st.counter).1 ∈
      (createXcclComm w env st name hints cfg0).1 ∧
    Event.backendGetUniqueId ∉ (createXcclComm w env st name hints cfg0).1 ∧
    Event.backendCommInit ∉ (createXcclComm w env st name hints cfg0).1 := by
  rcases hpath with hsup | ⟨hnosup, hm, ht⟩
  · have hx : exchangeUniqueId w env st =
        ([.storeRead (getXCCLStoreKey st.counter).1],
         .error "Invalid XCCL unique ID size",
         { st with counter := st.counter + 1 }) := by
      rw [exchangeUniqueId_suppliedStore w env st hsup]
      exact exchangeUniqueIdStore_badSize w st hrank hsize
    refine ⟨?_, ?_, ?_, ?_⟩ <;> simp [createXcclComm, hx]
  · have hx : exchangeUniqueId w env st =
        ([Event.storeAcquire, .storeRead (getXCCLStoreKey st.counter).1],
         .error "Invalid XCCL unique ID size",
         { st with storePresent := true, createdInternalStore := true,
                   counter := st.counter + 1 }) := by
      rw [exchangeUniqueId_tcpPath w env st hnosup hm ht]
      unfold exchangeUniqueIdTCPStore
      dsimp only
      rw [exchangeUniqueIdStore_badSize w
        { st with storePresent := true, createdInternalStore := true }
        (by simpa using hrank) (by simpa using hsize)]
    refine ⟨?_, ?_, ?_, ?_⟩ <;> simp [createXcclComm, hx]

/-- C2 witness: rank 1 of 2 reading a 3-byte value against a 16-byte
identity size fails with the size error before any backend call. -/
theorem uniqueId_size_validated_witness :
    (createXcclComm ⟨16, .ok [], fun _ => [0, 1, 2], true, true, true⟩
      ⟨true, true⟩ ⟨1, 2, true, false, "auto", 0, 0⟩
      "c" [] defaultConfig).2.1 = .error "Invalid XCCL unique ID size" ∧
    Event.backendCommInit ∉
      (createXcclComm ⟨16, .ok [], fun _ => [0, 1, 2], true, true, true⟩
        ⟨true, true⟩ ⟨1, 2, true, false, "auto", 0, 0⟩
        "c" [] defaultConfig).1 := by
  have h := uniqueId_size_validated ⟨16, .ok [], fun _ => [0, 1, 2], true, true, true⟩
    ⟨true, true⟩ ⟨1, 2, true, false, "auto", 0, 0⟩ "c" [] defaultConfig
    (by decide) (.inl rfl) (by decide)
  exact ⟨h.1, h.2.2.2⟩

end TorchCommXCCL

namespace TorchCommXCCL

/-- C4: an unrecognized hint key never fails the call — it contributes one
warning naming the key and the communicator, the remaining entries are
still processed and the result is that of processing them — while a
recognized integer-typed hint whose value does not parse as an integer
fails the whole `createXcclComm` call with the parse error, before the
backend construction call. -/
theorem hint_unknown_warns_parse_fails :
    (∀ (cfg : OneCCLConfig) (rest : List (String × String)) (name k v : String),
      k ∉ recognizedKeys →
      populateXcclConfigFromHints cfg ((k, v) :: rest) name =
        (Event.warnUnknownHint k name :: (populateXcclConfigFromHints cfg rest name).1,
         (populateXcclConfigFromHints cfg rest name).2)) ∧
    (∀ (w : World) (env : EnvVars) (st : BootstrapState) (name : String)
        (hints : List (String × String)) (cfg0 : OneCCLConfig) (ids : List Nat),
      (exchangeUniqueId w env st).2.1 = .ok ids →
      (∃ kv ∈ hints, kv.1 ∈ intHintKeys ∧ stoi kv.2 = none) →
      (createXcclComm w env st name hints cfg0).2.1 = .error stoiErrMsg ∧
      Event.backendCommInit ∉ (createXcclComm w env st name hints cfg0).1) := by
  constructor
  · exact fun cfg rest name k v h =>
      populateXcclConfigFromHints_unknown_step cfg rest name k v h
  · intro w env st name hints cfg0 ids hx hbad
    have hpop := populateXcclConfigFromHints_badInt
      { cfg0 with commName := some name } hints name hbad
    constructor
    · simp [createXcclComm, hx, hpop]
    · intro hmem
      have hevents : (createXcclComm w env st name hints cfg0).1 =
          (exchangeUniqueId w env st).1 ++
          (populateXcclConfigFromHints { cfg0 with commName := some name } hints name).1 := by
        simp [createXcclComm, hx, hpop]
      rw [hevents] at hmem
      rcases List.mem_append.mp hmem with h | h
      · rcases exchangeUniqueId_events w env st _ h with h' | h' | h' | h' <;> simp at h'
      · obtain ⟨k, nm, hk⟩ := populateXcclConfigFromHints_events _ hints name _ h
        cases hk

/-- C4 witness: the unknown key "bogus_key" only warns and leaves the rest
of the processing intact, and the hint `min_ctas = "abc"` fails the whole
call with the parse error and no backend construction. -/
theorem hint_unknown_warns_parse_fails_witness :
    populateXcclConfigFromHints defaultConfig [("bogus_key", "x")] "c" =
      (Event.warnUnknownHint "bogus_key" "c" ::
        (populateXcclConfigFromHints defaultConfig [] "c").1,
       (populateXcclConfigFromHints defaultConfig [] "c").2) ∧
    (createXcclComm ⟨16, .ok [], fun _ => [], true, true, true⟩ ⟨true, true⟩
      ⟨0, 2, true, false, "auto", 0, 0⟩
      "c" [("min_ctas", "abc")] defaultConfig).2.1 = .error stoiErrMsg := by
  constructor
  · exact hint_unknown_warns_parse_fails.1 defaultConfig [] "c" "bogus_key" "x" (by decide)
  · exact (hint_unknown_warns_parse_fails.2 ⟨16, .ok [], fun _ => [], true, true, true⟩
      ⟨true, true⟩ ⟨0, 2, true, false, "auto", 0, 0⟩ "c" [("min_ctas", "abc")]
      defaultConfig [] rfl
      ⟨("min_ctas", "abc"), by decide, by decide, by decide⟩).1

/-- C7: with an externally supplied store the internal-store flag stays
false through `createXcclComm`, the teardown step never runs (no store
release, no barrier all-reduce, no stream synchronize, no registry
acquisition), the store handle is still present afterwards, and the
destructor touches no store either. -/
theorem external_store_never_released (w : World) (env : EnvVars)
    (st : BootstrapState) (name : String) (hints : List (String × String))
    (cfg0 : OneCCLConfig)
    (hs : st.storePresent = true) (hc : st.createdInternalStore = false) :
    (createXcclComm w env st name hints cfg0).2.2.createdInternalStore = false ∧
    (createXcclComm w env st name hints cfg0).2.2.storePresent = true ∧
    Event.storeReset ∉ (createXcclComm w env st name hints cfg0).1 ∧
    Event.allReduceBarrier ∉ (createXcclComm w env st name hints cfg0).1 ∧
    Event.streamSync ∉ (createXcclComm w env st name hints cfg0).1 ∧
    Event.storeAcquire ∉ (createXcclComm w env st name hints cfg0).1 ∧
    Event.storeReset ∉ destructorEvents := by
  have hstate := createXcclComm_state_supplied w env st name hints cfg0 hs hc
  have hev := createXcclComm_events_supplied w env st name hints cfg0 hs hc
  refine ⟨by rw [hstate]; exact hc, by rw [hstate]; exact hs, ?_, ?_, ?_, ?_, by decide⟩
  all_goals intro hmem
  all_goals rcases hev _ hmem with h | h | h | h | h <;> simp at h

/-- C7 witness: a run with a supplied store on rank 1 keeps the flag false
and emits no store-teardown events. -/
theorem external_store_never_released_witness :
    (createXcclComm ⟨4, .ok [], fun _ => [0, 0, 0, 0], true, true, true⟩
      ⟨true, true⟩ ⟨1, 2, true, false, "auto", 0, 0⟩
      "c" [] defaultConfig).2.2.createdInternalStore = false ∧
    Event.storeReset ∉
      (createXcclComm ⟨4, .ok [], fun _ => [0, 0, 0, 0], true, true, true⟩
        ⟨true, true⟩ ⟨1, 2, true, false, "auto", 0, 0⟩
        "c" [] defaultConfig).1 := by
  have h := external_store_never_released
    ⟨4, .ok [], fun _ => [0, 0, 0, 0], true, true, true⟩
    ⟨true, true⟩ ⟨1, 2, true, false, "auto", 0, 0⟩ "c" [] defaultConfig rfl rfl
  exact ⟨h.1, h.2.2.1⟩

end TorchCommXCCL

namespace TorchCommXCCL

theorem cleanupTCPStore_internal_syncOk (w : World) (st : BootstrapState)
    (hc : st.createdInternalStore = true) (hsync : w.streamSyncOk = true) :
    (cleanupTCPStore w st).2.1 = .ok () ∧
    (w.allReduceOk = false →
      Event.logErrorAllReduce ∈ (cleanupTCPStore w st).1) := by
  constructor
  · simp [cleanupTCPStore, hc, hsync]
  · intro har
    simp [cleanupTCPStore, hc, hsync, har]

/-- C8 counterexample: with an internally created store and a successfully
constructed communicator, a failure of the stream synchronization that
follows the closing-barrier all-reduce does escalate — `createXcclComm`
raises instead of returning the communicator handle. -/
theorem barrier_streamSync_failure_escalates :
    (createXcclComm
      ⟨16, .ok (List.replicate 16 0), fun _ => [], true, true, false⟩
      ⟨true, true⟩ ⟨0, 2, false, false, "auto", 0, 0⟩
      "c" [] defaultConfig).2.1 = .error "Stream synchronization failed" := by
  rfl

/-- C8 amended: with an internally created store, a successfully
constructed communicator and a successful stream synchronization, a failure
reported by the closing-barrier all-reduce is logged but never escalates —
the call still returns the communicator handle; the subsequent stream
synchronization, however, raises on failure through `XPU_CHECK`. -/
theorem barrier_allReduce_failure_not_escalated (w : World) (env : EnvVars)
    (st : BootstrapState) (name : String) (hints : List (String × String))
    (cfg0 : OneCCLConfig) (ids : List Nat) (cfg' : OneCCLConfig)
    (hx : (exchangeUniqueId w env st).2.1 = .ok ids)
    (hint : (exchangeUniqueId w env st).2.2.createdInternalStore = true)
    (hpop : (populateXcclConfigFromHints { cfg0 with commName := some name }
      hints name).2 = .ok cfg')
    (hcomm : w.commInitOk = true)
    (hsync : w.streamSyncOk = true) :
    (createXcclComm w env st name hints cfg0).2.1 = .ok 1 ∧
    (w.allReduceOk = false →
      Event.logErrorAllReduce ∈ (createXcclComm w env st name hints cfg0).1) := by
  have hcl := cleanupTCPStore_internal_syncOk w (exchangeUniqueId w env st).2.2 hint hsync
  constructor
  · simp [createXcclComm, hx, hpop, hcomm, hcl.1]
  · intro har
    have hl := hcl.2 har
    have hevents : (createXcclComm w env st name hints cfg0).1 =
        (exchangeUniqueId w env st).1 ++
        (populateXcclConfigFromHints { cfg0 with commName := some name } hints name).1 ++
        [Event.backendCommInit] ++
        (cleanupTCPStore w (exchangeUniqueId w env st).2.2).1 := by
      cases hcle : (cleanupTCPStore w (exchangeUniqueId w env st).2.2).2.1 <;>
        simp [createXcclComm, hx, hpop, hcomm, hcle]
    rw [hevents]
    exact List.mem_append.mpr (.inr hl)

/-- C8 amended witness: a concrete internal-store run whose barrier
all-reduce fails still returns the handle and logs the barrier error. -/
theorem barrier_allReduce_failure_not_escalated_witness :
    (createXcclComm
      ⟨16, .ok (List.replicate 16 0), fun _ => [], true, false, true⟩
      ⟨true, true⟩ ⟨0, 2, false, false, "auto", 0, 0⟩
      "c" [] defaultConfig).2.1 = .ok 1 ∧
    Event.logErrorAllReduce ∈
      (createXcclComm
        ⟨16, .ok (List.replicate 16 0), fun _ => [], true, false, true⟩
        ⟨true, true⟩ ⟨0, 2, false, false, "auto", 0, 0⟩
        "c" [] defaultConfig).1 := by
  have h := barrier_allReduce_failure_not_escalated
    ⟨16, .ok (List.replicate 16 0), fun _ => [], true, false, true⟩
    ⟨true, true⟩ ⟨0, 2, false, false, "auto", 0, 0⟩
    "c" [] defaultConfig (List.replicate 16 0)
    { defaultConfig with commName := some "c" }
    rfl rfl rfl rfl rfl
  exact ⟨h.1, h.2 rfl⟩

end TorchCommXCCL
